import Mathlib

/-!
Verification of the baseball broadcast board clients.

The operator control panel (src/unnamed/part_000) and the display board
(src/public/js/board.js) are Vue applications sharing a scoreboard state
over a WebSocket.  This development embeds their data model and the
operations the specification talks about, and proves the specification's
claims about them.

JavaScript numbers are embedded as `Int` (all arithmetic in the sources is
small-integer arithmetic), booleans as `Bool`, strings as `String`.
-/

namespace BroadcastBoard

/-- The scoreboard state of the operator client: exactly the fields that the
`boardData` computed property of src/unnamed/part_000 (lines 81-98) bundles
together, with the initial values of the `data` block where relevant. -/
structure GameState where
  game_title : String
  team_top : String
  team_bottom : String
  game_inning : Int
  last_inning : Int
  top : Bool
  first_base : Bool
  second_base : Bool
  third_base : Bool
  ball_cnt : Int
  strike_cnt : Int
  out_cnt : Int
  score_top : Int
  score_bottom : Int
deriving DecidableEq, Repr

/-- The method `initParams` (part_000 lines 333-340): clears the three base flags and
the ball/strike/out counters. -/
def initParams (s : GameState) : GameState :=
  { s with first_base := false, second_base := false, third_base := false,
           ball_cnt := 0, strike_cnt := 0, out_cnt := 0 }

/-- The method `changeOffense` (part_000 lines 359-366): flips `top`, then `initParams`. -/
def changeOffense (s : GameState) : GameState :=
  initParams (if s.top then { s with top := false } else { s with top := true })

/-- The method `ballCountUp` (part_000 lines 374-378). -/
def ballCountUp (s : GameState) : GameState :=
  if s.ball_cnt < 3 then { s with ball_cnt := s.ball_cnt + 1 } else s

/-- The method `ballCountDown` (part_000 lines 379-383). -/
def ballCountDown (s : GameState) : GameState :=
  if s.ball_cnt ≥ 1 then { s with ball_cnt := s.ball_cnt - 1 } else s

/-- The method `strikeCountUp` (part_000 lines 384-388). -/
def strikeCountUp (s : GameState) : GameState :=
  if s.strike_cnt < 2 then { s with strike_cnt := s.strike_cnt + 1 } else s

/-- The method `strikeCountDown` (part_000 lines 389-393). -/
def strikeCountDown (s : GameState) : GameState :=
  if s.strike_cnt ≥ 1 then { s with strike_cnt := s.strike_cnt - 1 } else s

/-- The method `outCountUp` (part_000 lines 394-398). -/
def outCountUp (s : GameState) : GameState :=
  if s.out_cnt < 2 then { s with out_cnt := s.out_cnt + 1 } else s

/-- The method `outCountDown` (part_000 lines 399-403). -/
def outCountDown (s : GameState) : GameState :=
  if s.out_cnt ≥ 1 then { s with out_cnt := s.out_cnt - 1 } else s

/-- The method `gameStatusUp` (part_000 lines 404-409). -/
def gameStatusUp (s : GameState) : GameState :=
  if s.game_inning < s.last_inning + 1 then
    initParams { s with game_inning := s.game_inning + 1 }
  else s

/-- The method `gameStatusDown` (part_000 lines 410-415). -/
def gameStatusDown (s : GameState) : GameState :=
  if s.game_inning > 0 then
    initParams { s with game_inning := s.game_inning - 1 }
  else s

/-- The method `gameForward` (part_000 lines 416-426): advance one half inning. -/
def gameForward (s : GameState) : GameState :=
  if s.game_inning ≤ s.last_inning then
    initParams (if s.top then { s with top := false }
                else { s with game_inning := s.game_inning + 1, top := true })
  else s

/-- The method `gameBackward` (part_000 lines 427-441): retreat one half inning; when the
retreat lands on inning 0 both scores are zeroed. -/
def gameBackward (s : GameState) : GameState :=
  if s.game_inning ≥ 1 then
    let s1 := if s.top then { s with game_inning := s.game_inning - 1, top := false }
              else { s with top := true }
    let s2 := initParams s1
    if s2.game_inning = 0 then { s2 with score_top := 0, score_bottom := 0 } else s2
  else s

/-- The method `incrementScoreTop` (part_000 lines 442-444). -/
def incrementScoreTop (s : GameState) : GameState :=
  { s with score_top := s.score_top + 1 }

/-- The method `decrementScoreTop` (part_000 lines 445-449). -/
def decrementScoreTop (s : GameState) : GameState :=
  if s.score_top > 0 then { s with score_top := s.score_top - 1 } else s

/-- The method `incrementScoreBottom` (part_000 lines 450-452). -/
def incrementScoreBottom (s : GameState) : GameState :=
  { s with score_bottom := s.score_bottom + 1 }

/-- The method `decrementScoreBottom` (part_000 lines 453-457). -/
def decrementScoreBottom (s : GameState) : GameState :=
  if s.score_bottom > 0 then { s with score_bottom := s.score_bottom - 1 } else s

/-- The state mutation performed by `resetGame` (part_000 lines 458-476) once
the operator has confirmed the dialog (the dialog itself is a UI concern). -/
def resetGame (s : GameState) : GameState :=
  initParams { s with game_inning := 0, top := true, score_top := 0, score_bottom := 0 }

/-- The method `endGame` (part_000 lines 477-481). -/
def endGame (s : GameState) : GameState :=
  initParams { s with game_inning := s.last_inning + 1 }

/-- The GameState mutation operations exposed to the operator surface. -/
def operatorOperations : List (GameState → GameState) :=
  [ballCountUp, ballCountDown, strikeCountUp, strikeCountDown, outCountUp,
   outCountDown, incrementScoreTop, decrementScoreTop, incrementScoreBottom,
   decrementScoreBottom, gameForward, gameBackward, gameStatusUp,
   gameStatusDown, changeOffense, resetGame, endGame]

/-- The domain invariant of the bounded counters: balls in [0,3], strikes and
outs in [0,2], both scores nonnegative (spec section 3). -/
def InDomain (s : GameState) : Prop :=
  0 ≤ s.ball_cnt ∧ s.ball_cnt ≤ 3 ∧ 0 ≤ s.strike_cnt ∧ s.strike_cnt ≤ 2 ∧
  0 ≤ s.out_cnt ∧ s.out_cnt ≤ 2 ∧ 0 ≤ s.score_top ∧ 0 ≤ s.score_bottom

/-- A sample in-domain state used by witnesses. -/
def sampleState : GameState :=
  { game_title := "t", team_top := "A", team_bottom := "B",
    game_inning := 3, last_inning := 9, top := true,
    first_base := true, second_base := false, third_base := false,
    ball_cnt := 3, strike_cnt := 2, out_cnt := 2,
    score_top := 5, score_bottom := 4 }

end BroadcastBoard

namespace BroadcastBoard

/-- C4: every operator operation preserves the counter domains (clamped, never
wrapped); increments/decrements at a bound are no-ops; the counter ops never
push a counter past its cap nor below its floor from any starting state; score
decrements floor at 0 while score increments are unbounded. -/
theorem counters_clamped_in_domain :
    (∀ op ∈ operatorOperations, ∀ s : GameState, InDomain s → InDomain (op s)) ∧
    (∀ s : GameState, (ballCountUp s).ball_cnt ≤ max s.ball_cnt 3 ∧
      (ballCountDown s).ball_cnt ≥ min s.ball_cnt 0 ∧
      (strikeCountUp s).strike_cnt ≤ max s.strike_cnt 2 ∧
      (strikeCountDown s).strike_cnt ≥ min s.strike_cnt 0 ∧
      (outCountUp s).out_cnt ≤ max s.out_cnt 2 ∧
      (outCountDown s).out_cnt ≥ min s.out_cnt 0 ∧
      (decrementScoreTop s).score_top ≥ min s.score_top 0 ∧
      (decrementScoreBottom s).score_bottom ≥ min s.score_bottom 0 ∧
      (incrementScoreTop s).score_top = s.score_top + 1 ∧
      (incrementScoreBottom s).score_bottom = s.score_bottom + 1) ∧
    (∀ s : GameState,
      (s.ball_cnt = 3 → ballCountUp s = s) ∧
      (s.ball_cnt = 0 → ballCountDown s = s) ∧
      (s.strike_cnt = 2 → strikeCountUp s = s) ∧
      (s.strike_cnt = 0 → strikeCountDown s = s) ∧
      (s.out_cnt = 2 → outCountUp s = s) ∧
      (s.out_cnt = 0 → outCountDown s = s) ∧
      (s.score_top = 0 → decrementScoreTop s = s) ∧
      (s.score_bottom = 0 → decrementScoreBottom s = s)) := by
  refine ⟨?_, ?_, ?_⟩
  · intro op hop s hs
    unfold InDomain at hs ⊢
    simp only [operatorOperations, List.mem_cons, List.not_mem_nil, or_false] at hop
    rcases hop with rfl|rfl|rfl|rfl|rfl|rfl|rfl|rfl|rfl|rfl|rfl|rfl|rfl|rfl|rfl|rfl|rfl <;>
      simp only [ballCountUp, ballCountDown, strikeCountUp, strikeCountDown,
        outCountUp, outCountDown, incrementScoreTop, decrementScoreTop,
        incrementScoreBottom, decrementScoreBottom, gameForward, gameBackward,
        gameStatusUp, gameStatusDown, changeOffense, resetGame, endGame,
        initParams] <;>
      (try split_ifs) <;> simp_all <;> (try omega)
  · intro s
    refine ⟨?_, ?_, ?_, ?_, ?_, ?_, ?_, ?_, ?_, ?_⟩ <;>
      simp only [ballCountUp, ballCountDown, strikeCountUp, strikeCountDown,
        outCountUp, outCountDown, incrementScoreTop, decrementScoreTop,
        incrementScoreBottom, decrementScoreBottom] <;>
      (try split_ifs) <;> (try simp_all) <;> omega
  · intro s
    refine ⟨?_, ?_, ?_, ?_, ?_, ?_, ?_, ?_⟩ <;> intro h <;>
      simp [ballCountUp, ballCountDown, strikeCountUp, strikeCountDown,
        outCountUp, outCountDown, decrementScoreTop, decrementScoreBottom, h]

/-- Witness for `counters_clamped_in_domain` at a concrete in-domain state. -/
theorem counters_clamped_in_domain_witness :
    InDomain (ballCountUp sampleState) ∧ ballCountUp sampleState = sampleState :=
  ⟨counters_clamped_in_domain.1 ballCountUp (by simp [operatorOperations])
      sampleState (by unfold InDomain; decide),
   (counters_clamped_in_domain.2.2 sampleState).1 (by decide)⟩

/-- The sample state in the bottom of the first inning, mid at-bat. -/
def bottomFirstState : GameState := { sampleState with game_inning := 1, top := false }

/-- C7: `gameBackward` with inning ≥ 1 maps (i, top) to (i-1, bottom) and
(i, bottom) to (i, top), always clears balls/strikes/outs and the three base
flags, zeroes both scores exactly when it lands on inning 0, and is a no-op
when inning < 1. -/
theorem gameBackward_spec :
    (∀ s : GameState, 1 ≤ s.game_inning →
      (s.top = true → (gameBackward s).game_inning = s.game_inning - 1 ∧
        (gameBackward s).top = false) ∧
      (s.top = false → (gameBackward s).game_inning = s.game_inning ∧
        (gameBackward s).top = true) ∧
      (gameBackward s).ball_cnt = 0 ∧ (gameBackward s).strike_cnt = 0 ∧
      (gameBackward s).out_cnt = 0 ∧ (gameBackward s).first_base = false ∧
      (gameBackward s).second_base = false ∧ (gameBackward s).third_base = false ∧
      ((gameBackward s).game_inning = 0 →
        (gameBackward s).score_top = 0 ∧ (gameBackward s).score_bottom = 0) ∧
      ((gameBackward s).game_inning ≠ 0 →
        (gameBackward s).score_top = s.score_top ∧
        (gameBackward s).score_bottom = s.score_bottom) ∧
      (gameBackward s).last_inning = s.last_inning) ∧
    (∀ s : GameState, s.game_inning < 1 → gameBackward s = s) := by
  constructor
  · intro s h
    cases htop : s.top <;>
      simp only [gameBackward, initParams, htop, if_true, if_false, ge_iff_le, h,
        Bool.false_eq_true, if_pos h] <;>
      split_ifs <;> simp_all
  · intro s h
    unfold gameBackward
    rw [if_neg (by omega)]

/-- Witness for `gameBackward_spec`: from (inning=1, bottom) one call yields
(1, top) keeping the scores, and a second call yields inning 0, bottom, with
both scores reset to 0. -/
theorem gameBackward_spec_witness :
    (gameBackward bottomFirstState).game_inning = 1 ∧
    (gameBackward bottomFirstState).top = true ∧
    (gameBackward bottomFirstState).score_top = 5 ∧
    (gameBackward (gameBackward bottomFirstState)).game_inning = 0 ∧
    (gameBackward (gameBackward bottomFirstState)).top = false ∧
    (gameBackward (gameBackward bottomFirstState)).score_top = 0 ∧
    (gameBackward (gameBackward bottomFirstState)).score_bottom = 0 := by
  have h := gameBackward_spec.1 bottomFirstState (by decide)
  exact ⟨(h.2.1 (by decide)).1, (h.2.1 (by decide)).2, by decide, by decide,
    by decide, by decide, by decide⟩

/-- C8: `gameForward` with inning ≤ lastInning maps (i, top) to (i, bottom) and
(i, bottom) to (i+1, top), always clears balls/strikes/outs and the three base
flags, never changes the scores, and is a no-op when inning > lastInning. -/
theorem gameForward_spec :
    (∀ s : GameState, s.game_inning ≤ s.last_inning →
      (s.top = true → (gameForward s).game_inning = s.game_inning ∧
        (gameForward s).top = false) ∧
      (s.top = false → (gameForward s).game_inning = s.game_inning + 1 ∧
        (gameForward s).top = true) ∧
      (gameForward s).ball_cnt = 0 ∧ (gameForward s).strike_cnt = 0 ∧
      (gameForward s).out_cnt = 0 ∧ (gameForward s).first_base = false ∧
      (gameForward s).second_base = false ∧ (gameForward s).third_base = false ∧
      (gameForward s).last_inning = s.last_inning) ∧
    (∀ s : GameState, s.last_inning < s.game_inning → gameForward s = s) ∧
    (∀ s : GameState, (gameForward s).score_top = s.score_top ∧
      (gameForward s).score_bottom = s.score_bottom) := by
  refine ⟨?_, ?_, ?_⟩
  · intro s h
    cases htop : s.top <;>
      simp [gameForward, initParams, htop, h]
  · intro s h
    unfold gameForward
    rw [if_neg (by omega)]
  · intro s
    simp only [gameForward, initParams]
    split_ifs <;> cases htop : s.top <;> simp [htop]

/-- Witness for `gameForward_spec`: from (inning=3, bottom) it yields (4, top),
and from (3, top) it yields (3, bottom). -/
theorem gameForward_spec_witness :
    (gameForward { sampleState with game_inning := 3, top := false }).game_inning = 4 ∧
    (gameForward { sampleState with game_inning := 3, top := false }).top = true ∧
    (gameForward { sampleState with game_inning := 3, top := true }).game_inning = 3 ∧
    (gameForward { sampleState with game_inning := 3, top := true }).top = false ∧
    gameForward { sampleState with game_inning := 10 } =
      { sampleState with game_inning := 10 } := by
  have hb := gameForward_spec.1 { sampleState with game_inning := 3, top := false } (by decide)
  have ht := gameForward_spec.1 { sampleState with game_inning := 3, top := true } (by decide)
  have hn := gameForward_spec.2.1 { sampleState with game_inning := 10 } (by decide)
  exact ⟨(hb.2.1 (by decide)).1, (hb.2.1 (by decide)).2,
    (ht.1 (by decide)).1, (ht.1 (by decide)).2, hn⟩

/-! ## Connection lifecycle

Both clients carry identical reconnection machinery (part_000 lines 281-321,
board.js lines 221-259): `connectionStatus`, `reconnectAttempts`,
`maxReconnectAttempts = 10`, `reconnectDelay = 1000`, and a single
`reconnectTimer`.  `reconnectTimer` here models the *pending* one-shot timer:
`some d` means a timer armed with delay `d` milliseconds is outstanding. -/

inductive ConnStatus where
  | connecting
  | connected
  | reconnecting
  | disconnected
deriving DecidableEq, Repr

/-- The connection-related fields of a client. -/
structure ConnState where
  connectionStatus : ConnStatus
  reconnectAttempts : Nat
  reconnectTimer : Option Nat
deriving DecidableEq, Repr

def maxReconnectAttempts : Nat := 10

def reconnectDelay : Nat := 1000

/-- The method `cancelReconnect` (part_000 lines 316-321): clears any pending timer. -/
def cancelReconnect (s : ConnState) : ConnState :=
  { s with reconnectTimer := none }

/-- The method `scheduleReconnect` (part_000 lines 292-314): cancels any pending timer;
if the attempt budget is exhausted, goes terminal; otherwise arms a one-shot
timer with exponential-backoff delay capped at 30000 ms. -/
def scheduleReconnect (s : ConnState) : ConnState :=
  let s0 := cancelReconnect s
  if s0.reconnectAttempts ≥ maxReconnectAttempts then
    { s0 with connectionStatus := ConnStatus.disconnected }
  else
    { s0 with reconnectTimer := some (min (reconnectDelay * 2 ^ s0.reconnectAttempts) 30000) }

/-- The state change performed when the reconnect timer fires (part_000 lines
310-313): the pending timer is consumed, `reconnectAttempts` is incremented,
and then `connectWebSocket()` is retried with this state. -/
def fireReconnectTimer (s : ConnState) : ConnState :=
  { s with reconnectTimer := none, reconnectAttempts := s.reconnectAttempts + 1 }

/-- The connection-state part of `handleWebSocketOpen` (part_000 lines
164-169): status becomes connected and the attempt counter resets to 0. -/
def handleWebSocketOpen (s : ConnState) : ConnState :=
  { s with connectionStatus := ConnStatus.connected, reconnectAttempts := 0 }

/-- The method `handleWebSocketClose` (part_000 lines 281-290): if the status is not the
terminal `disconnected`, move to `reconnecting` and schedule a reconnect;
otherwise do nothing. -/
def handleWebSocketClose (s : ConnState) : ConnState :=
  if s.connectionStatus ≠ ConnStatus.disconnected then
    scheduleReconnect { s with connectionStatus := ConnStatus.reconnecting }
  else s

/-- C5: with `n = reconnectAttempts < 10`, `scheduleReconnect` arms exactly the
one timer with delay `min(1000·2^n, 30000)` (any prior pending timer is
replaced, and status and attempts are untouched); the timer's firing increments
the attempt counter by 1 before `connect()` is retried; and the attempt counter
is reset to 0 exactly on a successful open: open sets it to 0, while scheduling
preserves it, firing makes it positive, and close preserves it. -/
theorem reconnect_backoff_spec :
    (∀ s : ConnState, s.reconnectAttempts < maxReconnectAttempts →
      scheduleReconnect s =
        { s with reconnectTimer := some (min (reconnectDelay * 2 ^ s.reconnectAttempts) 30000) }) ∧
    (∀ s : ConnState, (fireReconnectTimer s).reconnectAttempts =
      s.reconnectAttempts + 1 ∧ (fireReconnectTimer s).reconnectTimer = none) ∧
    (∀ s : ConnState, (handleWebSocketOpen s).reconnectAttempts = 0 ∧
      (handleWebSocketOpen s).connectionStatus = ConnStatus.connected) ∧
    (∀ s : ConnState, (scheduleReconnect s).reconnectAttempts = s.reconnectAttempts ∧
      (fireReconnectTimer s).reconnectAttempts ≠ 0 ∧
      (handleWebSocketClose s).reconnectAttempts = s.reconnectAttempts) := by
  refine ⟨?_, ?_, ?_, ?_⟩
  · intro s h
    simp only [scheduleReconnect, cancelReconnect]
    rw [if_neg (by omega)]
  · intro s; exact ⟨rfl, rfl⟩
  · intro s; exact ⟨rfl, rfl⟩
  · intro s
    refine ⟨?_, by simp [fireReconnectTimer], ?_⟩
    · simp only [scheduleReconnect, cancelReconnect]
      split_ifs <;> rfl
    · simp only [handleWebSocketClose, scheduleReconnect, cancelReconnect]
      split_ifs <;> rfl

/-- Witness for `reconnect_backoff_spec` at attempts = 3: the armed delay is
min(1000·2³, 30000) = 8000 ms. -/
theorem reconnect_backoff_spec_witness :
    scheduleReconnect
        { connectionStatus := ConnStatus.reconnecting, reconnectAttempts := 3,
          reconnectTimer := some 4000 } =
      { connectionStatus := ConnStatus.reconnecting, reconnectAttempts := 3,
        reconnectTimer := some 8000 } := by
  have h := reconnect_backoff_spec.1
    { connectionStatus := ConnStatus.reconnecting, reconnectAttempts := 3,
      reconnectTimer := some 4000 } (by decide)
  simpa using h

/-- C6: once the attempt budget is exhausted (attempts ≥ 10 when
`scheduleReconnect` runs), the status becomes the terminal `disconnected` and
no timer is armed; the close handler does nothing when the status is already
`disconnected`, so no sequence of further close events ever changes the state
or arms a timer again. -/
theorem reconnect_terminal_spec :
    (∀ s : ConnState, maxReconnectAttempts ≤ s.reconnectAttempts →
      (scheduleReconnect s).connectionStatus = ConnStatus.disconnected ∧
      (scheduleReconnect s).reconnectTimer = none) ∧
    (∀ s : ConnState, s.connectionStatus = ConnStatus.disconnected →
      handleWebSocketClose s = s) ∧
    (∀ s : ConnState, s.connectionStatus = ConnStatus.disconnected →
      ∀ n : Nat, Nat.iterate handleWebSocketClose n s = s) := by
  refine ⟨?_, ?_, ?_⟩
  · intro s h
    simp only [scheduleReconnect, cancelReconnect]
    rw [if_pos (by omega)]
    exact ⟨rfl, rfl⟩
  · intro s h
    simp [handleWebSocketClose, h]
  · intro s h n
    induction n with
    | zero => rfl
    | succ k ih =>
      rw [Function.iterate_succ_apply, show handleWebSocketClose s = s from by
        simp [handleWebSocketClose, h], ih]

/-- Witness for `reconnect_terminal_spec`: a client at 10 attempts goes
terminal with no timer, and close events leave the terminal state unchanged. -/
theorem reconnect_terminal_spec_witness :
    (scheduleReconnect
        { connectionStatus := ConnStatus.reconnecting, reconnectAttempts := 10,
          reconnectTimer := some 30000 }).connectionStatus = ConnStatus.disconnected ∧
    (scheduleReconnect
        { connectionStatus := ConnStatus.reconnecting, reconnectAttempts := 10,
          reconnectTimer := some 30000 }).reconnectTimer = none ∧
    Nat.iterate handleWebSocketClose 3
        { connectionStatus := ConnStatus.disconnected, reconnectAttempts := 10,
          reconnectTimer := none } =
      { connectionStatus := ConnStatus.disconnected, reconnectAttempts := 10,
        reconnectTimer := none } := by
  refine ⟨?_, ?_, ?_⟩
  · exact (reconnect_terminal_spec.1
      { connectionStatus := ConnStatus.reconnecting, reconnectAttempts := 10,
        reconnectTimer := some 30000 } (by decide)).1
  · exact (reconnect_terminal_spec.1
      { connectionStatus := ConnStatus.reconnecting, reconnectAttempts := 10,
        reconnectTimer := some 30000 } (by decide)).2
  · exact reconnect_terminal_spec.2.2
      { connectionStatus := ConnStatus.disconnected, reconnectAttempts := 10,
        reconnectTimer := none } (by decide) 3

/-! ## Inbound `game_state` payloads and the two receivers

A `game_state` payload may carry any subset of the GameState fields; `some v`
models a field explicitly present with value `v`, `none` a field absent from
the JSON object.  The board client (board.js lines 186-208) merges with `in`
presence checks; the operator client (part_000 lines 243-266) assigns
`savedState.field || default` for every field, i.e. JavaScript truthiness with
a per-field fallback. -/

structure Payload where
  game_title : Option String
  team_top : Option String
  team_bottom : Option String
  game_inning : Option Int
  last_inning : Option Int
  top : Option Bool
  first_base : Option Bool
  second_base : Option Bool
  third_base : Option Bool
  ball_cnt : Option Int
  strike_cnt : Option Int
  out_cnt : Option Int
  score_top : Option Int
  score_bottom : Option Int
deriving DecidableEq, Repr

/-- A payload with every field absent. -/
def emptyPayload : Payload :=
  { game_title := none, team_top := none, team_bottom := none,
    game_inning := none, last_inning := none, top := none,
    first_base := none, second_base := none, third_base := none,
    ball_cnt := none, strike_cnt := none, out_cnt := none,
    score_top := none, score_bottom := none }

/-- JavaScript `x || d` for an optional number field: an absent field and a
present `0` both fall back to the default. -/
def jsOrInt (v : Option Int) (d : Int) : Int :=
  match v with
  | some x => if x = 0 then d else x
  | none => d

/-- JavaScript `x || d` for an optional boolean field. -/
def jsOrBool (v : Option Bool) (d : Bool) : Bool :=
  match v with
  | some b => b || d
  | none => d

/-- JavaScript `x || d` for an optional string field: an absent field and a
present empty string both fall back to the default. -/
def jsOrString (v : Option String) (d : String) : String :=
  match v with
  | some x => if x = "" then d else x
  | none => d

/-- The `game_state` branch of the operator client's `handleWebSocketMessage`
(part_000 lines 249-262): every field is assigned `savedState.field || default`,
where the default is the previous local value for the three strings and a
constant (0, 9 or false) for everything else. -/
def operatorApplyGameState (p : Payload) (s : GameState) : GameState :=
  { game_title := jsOrString p.game_title s.game_title,
    team_top := jsOrString p.team_top s.team_top,
    team_bottom := jsOrString p.team_bottom s.team_bottom,
    game_inning := jsOrInt p.game_inning 0,
    last_inning := jsOrInt p.last_inning 9,
    top := jsOrBool p.top false,
    first_base := jsOrBool p.first_base false,
    second_base := jsOrBool p.second_base false,
    third_base := jsOrBool p.third_base false,
    ball_cnt := jsOrInt p.ball_cnt 0,
    strike_cnt := jsOrInt p.strike_cnt 0,
    out_cnt := jsOrInt p.out_cnt 0,
    score_top := jsOrInt p.score_top 0,
    score_bottom := jsOrInt p.score_bottom 0 }

/-- The `game_state` branch of the board client's `handleWebSocketMessage`
(board.js lines 191-208): each field is copied exactly when present
(`'field' in newData`), otherwise the previous local value is kept. -/
def boardApplyGameState (p : Payload) (b : GameState) : GameState :=
  { game_title := p.game_title.getD b.game_title,
    team_top := p.team_top.getD b.team_top,
    team_bottom := p.team_bottom.getD b.team_bottom,
    game_inning := p.game_inning.getD b.game_inning,
    last_inning := p.last_inning.getD b.last_inning,
    top := p.top.getD b.top,
    first_base := p.first_base.getD b.first_base,
    second_base := p.second_base.getD b.second_base,
    third_base := p.third_base.getD b.third_base,
    ball_cnt := p.ball_cnt.getD b.ball_cnt,
    strike_cnt := p.strike_cnt.getD b.strike_cnt,
    out_cnt := p.out_cnt.getD b.out_cnt,
    score_top := p.score_top.getD b.score_top,
    score_bottom := p.score_bottom.getD b.score_bottom }

/-- Copy-if-present semantics: the present value if there is one, the previous
local value otherwise. -/
def presentOr {α : Type} (v : Option α) (d : α) : α :=
  match v with
  | some x => x
  | none => d

/-- Modelled from the spec: the presence-based merge the specification
prescribes for every StateReceiver — "for each known GameState field, copy it
into the local model only if the field is explicitly present in the payload
(presence check, not truthiness)". -/
def specPresenceMerge (p : Payload) (b : GameState) : GameState :=
  { game_title := presentOr p.game_title b.game_title,
    team_top := presentOr p.team_top b.team_top,
    team_bottom := presentOr p.team_bottom b.team_bottom,
    game_inning := presentOr p.game_inning b.game_inning,
    last_inning := presentOr p.last_inning b.last_inning,
    top := presentOr p.top b.top,
    first_base := presentOr p.first_base b.first_base,
    second_base := presentOr p.second_base b.second_base,
    third_base := presentOr p.third_base b.third_base,
    ball_cnt := presentOr p.ball_cnt b.ball_cnt,
    strike_cnt := presentOr p.strike_cnt b.strike_cnt,
    out_cnt := presentOr p.out_cnt b.out_cnt,
    score_top := presentOr p.score_top b.score_top,
    score_bottom := presentOr p.score_bottom b.score_bottom }

/-- Agreement of `presentOr` with `Option.getD`. -/
theorem presentOr_eq_getD {α : Type} (v : Option α) (d : α) : presentOr v d = v.getD d := by
  cases v <;> rfl

/-- A payload carrying only `ball_cnt`; every other field is absent. -/
def ballOnlyPayload : Payload := { emptyPayload with ball_cnt := some 1 }

/-- A payload carrying only `out_cnt = 0`. -/
def outZeroPayload : Payload := { emptyPayload with out_cnt := some 0 }

/-- C2 counterexample: the operator client's receiver is not a presence-based
merge.  With a payload carrying only `ball_cnt`, the absent `out_cnt` does not
keep its previous local value 2 — it is reset to the constant fallback 0. -/
theorem operator_merge_not_presence_based :
    ballOnlyPayload.out_cnt = none ∧ sampleState.out_cnt = 2 ∧
    (operatorApplyGameState ballOnlyPayload sampleState).out_cnt ≠ sampleState.out_cnt ∧
    operatorApplyGameState ballOnlyPayload sampleState ≠
      specPresenceMerge ballOnlyPayload sampleState := by decide

/-- C2 amended: the board client's receiver is exactly the presence-based
merge (absent fields keep their previous value, present-but-falsy values such
as 0 and false are applied); the operator client's receiver instead assigns
`payload.field || default` to every field — absent or zero numeric fields and
absent or false boolean fields become the constant defaults (0, 9 for
`last_inning`, false) rather than keeping the previous local value, while
string fields fall back to the previous local value.  Receiving
`{out_cnt: 0}` when the local outs are 2 sets the local outs to 0 on both
clients. -/
theorem state_receiver_merge_spec :
    (∀ p b, boardApplyGameState p b = specPresenceMerge p b) ∧
    (∀ (b : GameState), b.out_cnt = 2 →
      (boardApplyGameState outZeroPayload b).out_cnt = 0 ∧
      (operatorApplyGameState outZeroPayload b).out_cnt = 0) ∧
    (∀ p s, p.game_inning = none → (operatorApplyGameState p s).game_inning = 0) ∧
    (∀ p s, p.last_inning = none → (operatorApplyGameState p s).last_inning = 9) ∧
    (∀ p s, p.top = none → (operatorApplyGameState p s).top = false) ∧
    (∀ p s, p.out_cnt = none → (operatorApplyGameState p s).out_cnt = 0) ∧
    (∀ p s, p.game_title = some "" →
      (operatorApplyGameState p s).game_title = s.game_title) := by
  refine ⟨?_, ?_, ?_, ?_, ?_, ?_, ?_⟩
  · intro p b
    simp [boardApplyGameState, specPresenceMerge, presentOr_eq_getD]
  · intro b h
    simp [boardApplyGameState, operatorApplyGameState, outZeroPayload,
      emptyPayload, jsOrInt, h]
  · intro p s h; simp [operatorApplyGameState, jsOrInt, h]
  · intro p s h; simp [operatorApplyGameState, jsOrInt, h]
  · intro p s h; simp [operatorApplyGameState, jsOrBool, h]
  · intro p s h; simp [operatorApplyGameState, jsOrInt, h]
  · intro p s h; simp [operatorApplyGameState, jsOrString, h]

/-- Witness for `state_receiver_merge_spec` at concrete inputs: receiving
`{out_cnt: 0}` over local outs 2 yields outs 0 on both clients, and an absent
`game_inning` resets the operator client's inning to 0. -/
theorem state_receiver_merge_spec_witness :
    (boardApplyGameState outZeroPayload sampleState).out_cnt = 0 ∧
    (operatorApplyGameState outZeroPayload sampleState).out_cnt = 0 ∧
    (operatorApplyGameState ballOnlyPayload sampleState).game_inning = 0 :=
  ⟨(state_receiver_merge_spec.2.1 sampleState (by decide)).1,
   (state_receiver_merge_spec.2.1 sampleState (by decide)).2,
   state_receiver_merge_spec.2.2.1 ballOnlyPayload sampleState (by decide)⟩

/-! ## Master/slave authorization gate

The operator client's role (part_000 line 30: `null | 'master' | 'slave'`) and
the derived predicate `isOperationDisabled` (part_000 lines 100-104).  The
mutation methods themselves live in the Vue `methods` block; the operator
surface that invokes them (the control panel template, not under src/) is the
call site the specification's gate refers to. -/

inductive ClientRole where
  | unassigned
  | master
  | slave
deriving DecidableEq, Repr

/-- The method `isOperationDisabled` (part_000 lines 100-104): true exactly when the
client's role is slave. -/
def isOperationDisabled (r : ClientRole) : Bool :=
  r == ClientRole.slave

/-- Modelled from the spec: the operator surface's single authorization gate.
The control-panel template that binds the mutation methods to the UI is not
under src/; per the specification, every mutation operation exposed there "must
be refused (no-op or rejected) whenever `operationsDisabled` is true", with the
refusal happening silently at the call site rather than being reported as an
error.  Invoking an operation through the surface therefore applies it exactly
when the gate is open. -/
def operatorInvoke (r : ClientRole) (op : GameState → GameState)
    (s : GameState) : GameState :=
  if isOperationDisabled r then s else op s

/-- C1: whenever `isOperationDisabled` holds (role = slave), invoking any of
the operator-surface mutation operations through the gate leaves the GameState
unchanged; no error value exists in the model, so the refusal is silent. -/
theorem slave_mutations_refused :
    ∀ r : ClientRole, isOperationDisabled r = true →
      ∀ op ∈ operatorOperations, ∀ s : GameState, operatorInvoke r op s = s := by
  intro r h op _ s
  simp [operatorInvoke, h]

/-- Witness for `slave_mutations_refused`: a slave's `ballCountUp` on a state
with 0 balls changes nothing. -/
theorem slave_mutations_refused_witness :
    operatorInvoke ClientRole.slave ballCountUp { sampleState with ball_cnt := 0 } =
      { sampleState with ball_cnt := 0 } :=
  slave_mutations_refused ClientRole.slave (by decide) ballCountUp
    (by simp [operatorOperations]) { sampleState with ball_cnt := 0 }

/-! ## The boardData watcher and echo suppression

The operator client watches the composite `boardData` value (part_000 lines
57-69): Vue runs the handler after a batch of assignments exactly when the
composite value actually changed.  The handler consumes the one-shot
`restoredFromServer` flag — if it is set it clears it and returns, otherwise it
calls `updateBoard()` (lines 324-332), which sends a `game_state_update`
snapshot only when the socket is open and the client is master.
`handleWebSocketMessage` (lines 243-266) is the only place that sets the flag.
An emitted `some b` below models an outbound `game_state_update` carrying
snapshot `b`; `none` means nothing is sent. -/

structure OpClient where
  board : GameState
  restoredFromServer : Bool
  clientRole : ClientRole
  socketOpen : Bool
deriving DecidableEq, Repr

/-- The method `updateBoard` (part_000 lines 324-332): send the full snapshot only when
the socket is open and the local role is master. -/
def updateBoard (c : OpClient) : Option GameState :=
  if c.socketOpen && c.clientRole == ClientRole.master then some c.board else none

/-- The `boardData` watcher handler (part_000 lines 59-69): consume the
one-shot flag and skip broadcasting, or broadcast via `updateBoard`. -/
def notifyBoardWatcher (c : OpClient) : OpClient × Option GameState :=
  if c.restoredFromServer then ({ c with restoredFromServer := false }, none)
  else (c, updateBoard c)

/-- Processing an inbound `game_state` payload on the operator client: apply
the merge of part_000 lines 249-262, set `restoredFromServer` (line 264), then
the watcher handler runs exactly when the composite `boardData` changed. -/
def receiveGameState (c : OpClient) (p : Payload) : OpClient × Option GameState :=
  let c1 := { c with board := operatorApplyGameState p c.board,
                     restoredFromServer := true }
  if c1.board ≠ c.board then notifyBoardWatcher c1 else (c1, none)

/-- A local mutation on the operator client: apply the operation, then the
watcher handler runs exactly when the composite `boardData` changed. -/
def localMutation (c : OpClient) (op : GameState → GameState) : OpClient × Option GameState :=
  let c1 := { c with board := op c.board }
  if c1.board ≠ c.board then notifyBoardWatcher c1 else (c1, none)

/-- C3: applying a remotely received `game_state` never produces an outbound
`game_state_update` from the same client: the receiver sets the one-shot
`restoredFromServer` flag, and the watcher, finding the flag set, clears it
and skips sending. -/
theorem remote_apply_never_rebroadcasts :
    (∀ (c : OpClient) (p : Payload), (receiveGameState c p).2 = none) ∧
    (∀ c : OpClient, c.restoredFromServer = true →
      notifyBoardWatcher c = ({ c with restoredFromServer := false }, none)) := by
  constructor
  · intro c p
    unfold receiveGameState
    dsimp only
    split_ifs with h
    · simp [notifyBoardWatcher]
    · rfl
  · intro c h
    simp [notifyBoardWatcher, h]

/-- Witness for `remote_apply_never_rebroadcasts`: a master client with the
flag set skips the broadcast and clears the flag. -/
theorem remote_apply_never_rebroadcasts_witness :
    notifyBoardWatcher
        { board := sampleState, restoredFromServer := true,
          clientRole := ClientRole.master, socketOpen := true } =
      ({ board := sampleState, restoredFromServer := false,
         clientRole := ClientRole.master, socketOpen := true }, none) :=
  remote_apply_never_rebroadcasts.2
    { board := sampleState, restoredFromServer := true,
      clientRole := ClientRole.master, socketOpen := true } rfl

/-- C10: when a remote apply leaves the composite `boardData` unchanged, no
watcher notification fires, so the flag stays set; the next genuine local
mutation's notification then consumes the flag and is not broadcast — that
local change is silently dropped from broadcast. -/
theorem stale_flag_drops_next_local_broadcast :
    ∀ (c : OpClient) (p : Payload) (op : GameState → GameState),
      operatorApplyGameState p c.board = c.board →
      op c.board ≠ c.board →
      (receiveGameState c p).2 = none ∧
      (receiveGameState c p).1.restoredFromServer = true ∧
      (localMutation (receiveGameState c p).1 op).2 = none ∧
      (localMutation (receiveGameState c p).1 op).1.restoredFromServer = false ∧
      (localMutation (receiveGameState c p).1 op).1.board = op c.board := by
  intro c p op hsame hchange
  have hrecv : receiveGameState c p = ({ c with restoredFromServer := true }, none) := by
    unfold receiveGameState
    simp [hsame]
  rw [hrecv]
  refine ⟨rfl, rfl, ?_, ?_, ?_⟩ <;>
    · unfold localMutation notifyBoardWatcher
      simp [hchange]

/-- The operator-client board whose fields coincide with the truthiness
fallbacks, so that re-applying an empty payload changes nothing. -/
def echoBoard : GameState :=
  { game_title := "T", team_top := "A", team_bottom := "B",
    game_inning := 0, last_inning := 9, top := false,
    first_base := false, second_base := false, third_base := false,
    ball_cnt := 0, strike_cnt := 0, out_cnt := 0,
    score_top := 0, score_bottom := 0 }

/-- Witness for `stale_flag_drops_next_local_broadcast`: a master client with
an open socket receives a no-change update and then scores a run; the score
change is not broadcast. -/
theorem stale_flag_drops_next_local_broadcast_witness :
    (localMutation
        (receiveGameState
          { board := echoBoard, restoredFromServer := false,
            clientRole := ClientRole.master, socketOpen := true } emptyPayload).1
        incrementScoreTop).2 = none ∧
    (localMutation
        (receiveGameState
          { board := echoBoard, restoredFromServer := false,
            clientRole := ClientRole.master, socketOpen := true } emptyPayload).1
        incrementScoreTop).1.board = incrementScoreTop echoBoard := by
  have h := stale_flag_drops_next_local_broadcast
    { board := echoBoard, restoredFromServer := false,
      clientRole := ClientRole.master, socketOpen := true }
    emptyPayload incrementScoreTop (by decide) (by decide)
  exact ⟨h.2.2.1, h.2.2.2.2⟩

/-! ## Background color validation (board.js lines 6-41 and 128-145)

`validateHexColor` trims the input, lowercases it, tests it against the regex
`^#([0-9a-f]{6}|[0-9a-f]{3})$`, and expands a 3-digit form to 6 digits.
Strings are handled as their character lists; `jsTrim` and `jsToLowerChar`
embed `String.prototype.trim` / `toLowerCase` on the relevant characters.
`some normalized` stands for `{valid: true, normalizedColor}`, `none` for
`{valid: false, error}`. -/

/-- Trim whitespace from both ends, as `color.trim()` does. -/
def jsTrim (l : List Char) : List Char :=
  ((l.dropWhile Char.isWhitespace).reverse.dropWhile Char.isWhitespace).reverse

/-- Lowercasing of one character as `toLowerCase` does it: ASCII uppercase is
shifted down by 32. -/
def jsToLowerChar (c : Char) : Char :=
  if 65 ≤ c.toNat ∧ c.toNat ≤ 90 then Char.ofNat (c.toNat + 32) else c

/-- A lowercase hex digit `[0-9a-f]`. -/
def isLowerHexDigit (c : Char) : Bool :=
  decide ((48 ≤ c.toNat ∧ c.toNat ≤ 57) ∨ (97 ≤ c.toNat ∧ c.toNat ≤ 102))

/-- The regex `^#([0-9a-f]{6}|[0-9a-f]{3})$` as a predicate on char lists. -/
def hexColorTest (l : List Char) : Bool :=
  match l with
  | c :: rest =>
      decide (c = '#') && (rest.length == 6 || rest.length == 3) &&
        rest.all isLowerHexDigit
  | [] => false

/-- The 3-digit expansion (board.js lines 27-35): a 4-character normalized
color `#rgb` becomes `#rrggbb`; anything else is returned unchanged. -/
def expandHex (l : List Char) : List Char :=
  match l with
  | [a, r, g, b] => [a, r, r, g, g, b, b]
  | _ => l

/-- The method `validateHexColor` (board.js lines 6-41). -/
def validateHexColor (color : String) : Option String :=
  let t := jsTrim color.toList
  if t = [] then none
  else
    let n := t.map jsToLowerChar
    if hexColorTest n then some (String.mk (expandHex n)) else none

/-- The fixed default (board.js line 71). -/
def defaultBackgroundColor : String := "#ff55ff"

/-- The method `setBackgroundColor` (board.js lines 128-145): the color actually applied
to the board — the normalized color when validation succeeds, the fixed
default otherwise. -/
def setBackgroundColor (color : String) : String :=
  match validateHexColor color with
  | some n => n
  | none => defaultBackgroundColor

/-- A case-insensitive hex digit `[0-9a-fA-F]`. -/
def isHexDigitCI (c : Char) : Bool :=
  decide ((48 ≤ c.toNat ∧ c.toNat ≤ 57) ∨ (97 ≤ c.toNat ∧ c.toNat ≤ 102) ∨
    (65 ≤ c.toNat ∧ c.toNat ≤ 70))

/-- The claim's acceptance condition, stated on the raw input: after trimming,
the string is `#` followed by exactly 3 or 6 case-insensitive hex digits. -/
def specHexAccepted (color : String) : Bool :=
  match jsTrim color.toList with
  | c :: rest =>
      decide (c = '#') && (rest.length == 6 || rest.length == 3) &&
        rest.all isHexDigitCI
  | [] => false

/-- Evaluating `Char.ofNat` below the surrogate range. -/
theorem toNat_ofNat_of_lt {n : Nat} (h : n < 55296) : (Char.ofNat n).toNat = n := by
  have hv : n.isValidChar := Or.inl h
  unfold Char.ofNat
  rw [dif_pos hv]
  rfl

/-- Lowercasing turns the case-insensitive hex-digit test into the lowercase
one. -/
theorem isLowerHexDigit_jsToLowerChar (c : Char) :
    isLowerHexDigit (jsToLowerChar c) = isHexDigitCI c := by
  unfold jsToLowerChar isLowerHexDigit isHexDigitCI
  split_ifs with h
  · rw [toNat_ofNat_of_lt (by omega), decide_eq_decide]
    omega
  · rw [decide_eq_decide]
    omega

/-- Lowercasing preserves being the `#` character. -/
theorem jsToLowerChar_eq_hash_iff (c : Char) : jsToLowerChar c = '#' ↔ c = '#' := by
  have hh : ('#' : Char).toNat = 35 := by decide
  unfold jsToLowerChar
  split_ifs with h
  · apply iff_of_false
    · intro he
      have h35 := congrArg Char.toNat he
      rw [toNat_ofNat_of_lt (by omega), hh] at h35
      omega
    · intro he
      have h35 := congrArg Char.toNat he
      rw [hh] at h35
      omega
  · exact Iff.rfl

/-- Lowercasing a list turns the all-CI-hex test into the all-lowercase-hex
test. -/
theorem all_isLowerHexDigit_map (l : List Char) :
    (l.map jsToLowerChar).all isLowerHexDigit = l.all isHexDigitCI := by
  induction l with
  | nil => rfl
  | cons a t ih => simp [List.all_cons, isLowerHexDigit_jsToLowerChar, ih]

/-- Lists whose length is not exactly 4 pass through `expandHex` unchanged. -/
theorem expandHex_of_length_ne {l : List Char} (h : l.length ≠ 4) : expandHex l = l := by
  rcases l with _ | ⟨a, _ | ⟨b, _ | ⟨c, _ | ⟨d, _ | ⟨e, t⟩⟩⟩⟩⟩ <;>
    first
    | rfl
    | exact absurd rfl h

/-- A list passing the hex pattern expands to `#` followed by exactly 6
lowercase hex digits. -/
theorem hexColorTest_expand {l : List Char} (h : hexColorTest l = true) :
    ∃ rest : List Char, expandHex l = '#' :: rest ∧ rest.length = 6 ∧
      rest.all isLowerHexDigit = true := by
  cases l with
  | nil => exact absurd h (by decide)
  | cons c rest0 =>
    unfold hexColorTest at h
    simp only [Bool.and_eq_true, decide_eq_true_eq, Bool.or_eq_true,
      beq_iff_eq] at h
    obtain ⟨⟨hc, hlen⟩, hall⟩ := h
    subst hc
    rcases hlen with h6 | h3
    · exact ⟨rest0, expandHex_of_length_ne (by simp [h6]), h6, hall⟩
    · rcases rest0 with _ | ⟨r, rest1⟩
      · simp at h3
      rcases rest1 with _ | ⟨g, rest2⟩
      · simp at h3
      rcases rest2 with _ | ⟨b, rest3⟩
      · simp at h3
      rcases rest3 with _ | ⟨x, rest4⟩
      · refine ⟨[r, r, g, g, b, b], rfl, rfl, ?_⟩
        simp only [List.all_cons, List.all_nil, Bool.and_eq_true] at hall ⊢
        exact ⟨hall.1, hall.1, hall.2.1, hall.2.1, hall.2.2.1, hall.2.2.1, trivial⟩
      · simp at h3

/-- C9: `validateHexColor` accepts exactly the strings that trim to `#`
followed by 3 or 6 case-insensitive hex digits; every accepted string is
normalized to `#` followed by 6 lowercase hex digits; `"#GGGGGG"` is rejected,
`"#abc"` and `"#AABBCC"` both normalize to `"#aabbcc"`; and
`setBackgroundColor` applies the normalized color on success and falls back to
the fixed default `"#ff55ff"` on every invalid input. -/
theorem validateHexColor_spec :
    (∀ color : String, (validateHexColor color).isSome = specHexAccepted color) ∧
    (∀ (color s : String), validateHexColor color = some s →
      ∃ rest : List Char, s.toList = '#' :: rest ∧ rest.length = 6 ∧
        rest.all isLowerHexDigit = true) ∧
    validateHexColor "#GGGGGG" = none ∧
    validateHexColor "#abc" = some "#aabbcc" ∧
    validateHexColor "#AABBCC" = some "#aabbcc" ∧
    (∀ color : String, validateHexColor color = none →
      setBackgroundColor color = defaultBackgroundColor) ∧
    (∀ (color s : String), validateHexColor color = some s →
      setBackgroundColor color = s) := by
  refine ⟨?_, ?_, by decide, by decide, by decide, ?_, ?_⟩
  · intro color
    unfold validateHexColor specHexAccepted
    dsimp only
    cases hl : jsTrim color.toList with
    | nil => simp
    | cons c0 cs =>
      rw [if_neg (by simp)]
      simp only [List.map_cons, hexColorTest, List.length_map,
        all_isLowerHexDigit_map, jsToLowerChar_eq_hash_iff]
      split_ifs with hp
      · simp only [Option.isSome_some]
        exact hp.symm
      · simp only [Option.isSome_none]
        symm
        exact Bool.eq_false_iff.mpr hp
  · intro color s hv
    unfold validateHexColor at hv
    dsimp only at hv
    by_cases h1 : jsTrim color.toList = []
    · rw [if_pos h1] at hv
      exact absurd hv (by simp)
    · rw [if_neg h1] at hv
      by_cases h2 : hexColorTest (List.map jsToLowerChar (jsTrim color.toList)) = true
      · rw [if_pos h2] at hv
        obtain ⟨rest, he, hlen, hall⟩ := hexColorTest_expand h2
        injection hv with hs
        refine ⟨rest, ?_, hlen, hall⟩
        rw [← hs]
        exact he
      · rw [if_neg h2] at hv
        exact absurd hv (by simp)
  · intro color h
    unfold setBackgroundColor
    rw [h]
  · intro color s h
    unfold setBackgroundColor
    rw [h]

/-- Witness for `validateHexColor_spec`: the invalid `"#GGGGGG"` falls back to
the default, the valid `"#AABBCC"` is applied as `"#aabbcc"`, and the
normalized form of `"#abc"` is `#` plus 6 lowercase hex digits. -/
theorem validateHexColor_spec_witness :
    setBackgroundColor "#GGGGGG" = defaultBackgroundColor ∧
    setBackgroundColor "#AABBCC" = "#aabbcc" ∧
    (∃ rest : List Char, String.toList "#aabbcc" = '#' :: rest ∧
      rest.length = 6 ∧ rest.all isLowerHexDigit = true) :=
  ⟨validateHexColor_spec.2.2.2.2.2.1 "#GGGGGG" (by decide),
   validateHexColor_spec.2.2.2.2.2.2 "#AABBCC" "#aabbcc" (by decide),
   validateHexColor_spec.2.1 "#abc" "#aabbcc" (by decide)⟩

end BroadcastBoard
